import Mathlib

/-!
Shallow embedding of the weather-dashboard script (`main.py`): the fetcher /
normalizer `get_weather`, the per-day alert block, the comparison and export
table accumulation loop, and the city-list parsing.  Network and UI effects are
modelled explicitly: the HTTP layer is an oracle `api : String → Except FetchError
ProviderResponse`, user-visible messages and chart/alert rendering are logged in
the state, and uncaught Python exceptions are `Except.error`.
-/

set_option autoImplicit false

namespace Weather

/-- A calendar date, the result of `datetime.strptime(s, "%Y-%m-%d")`. -/
structure Date where
  year : Nat
  month : Nat
  day : Nat
deriving DecidableEq, Repr

/-- Lexicographic strict order on dates, as Python compares `datetime` values. -/
def dateLtb (a b : Date) : Bool :=
  a.year < b.year || (a.year = b.year && (a.month < b.month ||
    (a.month = b.month && a.day < b.day)))

/-- Whether a date list is strictly ascending. -/
def datesAscending : List Date → Bool
  | [] => true
  | [_] => true
  | a :: b :: rest => dateLtb a b && datesAscending (b :: rest)

/-- Split a character list on the dash character, as `"%Y-%m-%d"` parsing does. -/
def splitOnDash : List Char → List (List Char)
  | [] => [[]]
  | c :: cs =>
    if c = '-' then [] :: splitOnDash cs
    else
      match splitOnDash cs with
      | [] => [[c]]
      | g :: gs => (c :: g) :: gs

/-- Numeric value of a non-empty all-digit character group, else `none`. -/
def digitsVal (cs : List Char) : Option Nat :=
  if cs ≠ [] ∧ cs.all Char.isDigit then
    some (cs.foldl (fun acc c => acc * 10 + (c.toNat - 48)) 0)
  else none

/-- Model of `datetime.strptime(s, "%Y-%m-%d")`: three dash-separated digit
groups with the month and day in calendar range; any other shape raises
(`none` here, lifted to an error by the normalizer). -/
def parseDate (s : String) : Option Date :=
  match (splitOnDash s.data).map digitsVal with
  | [some y, some m, some d] =>
    if 1 ≤ m ∧ m ≤ 12 ∧ 1 ≤ d ∧ d ≤ 31 then some ⟨y, m, d⟩ else none
  | _ => none

/-- A provider `condition` object: display text and protocol-relative icon URI. -/
structure Condition where
  text : String
  icon : String
deriving DecidableEq, Repr

/-- The `day` object of one provider forecast day. -/
structure ProviderDayDetail where
  maxtemp_c : ℚ
  mintemp_c : ℚ
  condition : Condition
  maxwind_kph : ℚ
  avghumidity : ℚ
  daily_chance_of_rain : ℚ
  uv : ℚ
deriving DecidableEq, Repr

/-- The `astro` object of one provider forecast day. -/
structure Astro where
  sunrise : String
  sunset : String
deriving DecidableEq, Repr

/-- One entry of the provider's `forecast.forecastday` array. -/
structure ProviderDay where
  date : String
  day : ProviderDayDetail
  astro : Astro
deriving DecidableEq, Repr

/-- The provider's `current` object. -/
structure Current where
  temp_c : ℚ
  humidity : ℚ
  condition : Condition
  wind_kph : ℚ
  wind_dir : String
deriving DecidableEq, Repr

/-- The provider's `location` object. -/
structure Location where
  name : String
  region : String
  country : String
deriving DecidableEq, Repr

/-- The decoded JSON body of one provider response.  `error` is the truthiness
of `response.get("error")`; the three `Option` fields are `none` exactly when
the corresponding key is missing, in which case subscripting raises `KeyError`. -/
structure ProviderResponse where
  error : Bool
  current : Option Current
  location : Option Location
  forecast : Option (List ProviderDay)
deriving DecidableEq, Repr

/-- Uncaught Python exceptions of the script: a transport failure inside
`requests.get`, a `KeyError` on a missing response key, a `ValueError` from
`strptime`, or the `IndexError` of `forecast[0]` on an empty forecast list. -/
inductive FetchError where
  | transport : FetchError
  | keyError : String → FetchError
  | valueError : String → FetchError
  | indexError : FetchError
deriving DecidableEq, Repr

instance {ε α : Type} [DecidableEq ε] [DecidableEq α] : DecidableEq (Except ε α) :=
  fun a b =>
    match a, b with
    | .ok x, .ok y =>
      if h : x = y then .isTrue (by rw [h])
      else .isFalse (fun hh => h (Except.ok.inj hh))
    | .error x, .error y =>
      if h : x = y then .isTrue (by rw [h])
      else .isFalse (fun hh => h (Except.error.inj hh))
    | .ok _, .error _ => .isFalse (fun hh => Except.noConfusion hh)
    | .error _, .ok _ => .isFalse (fun hh => Except.noConfusion hh)

/-- One flattened forecast-day record, as built in the `get_weather` loop. -/
structure ForecastDay where
  date : Date
  temp_day : ℚ
  temp_night : ℚ
  weather : String
  wind_kph : ℚ
  humidity : ℚ
  chance_of_rain : ℚ
  uv : ℚ
  sunrise : String
  sunset : String
  icon : String
deriving DecidableEq, Repr

/-- The flat per-city record returned by `get_weather`. -/
structure CityWeather where
  city : String
  region : String
  country : String
  temp : ℚ
  humidity : ℚ
  weather : String
  wind_kph : ℚ
  wind_dir : String
  sunrise : String
  sunset : String
  icon : String
  forecast : List ForecastDay
deriving DecidableEq, Repr

/-- The script's fixed icon transformation: the literal `"http:" + icon`. -/
def fixIcon (icon : String) : String := "http:" ++ icon

/-- The record appended for one provider day, given its parsed date. -/
def mkForecastDay (d : ProviderDay) (dt : Date) : ForecastDay :=
  { date := dt
    temp_day := d.day.maxtemp_c
    temp_night := d.day.mintemp_c
    weather := d.day.condition.text
    wind_kph := d.day.maxwind_kph
    humidity := d.day.avghumidity
    chance_of_rain := d.day.daily_chance_of_rain
    uv := d.day.uv
    sunrise := d.astro.sunrise
    sunset := d.astro.sunset
    icon := fixIcon d.day.condition.icon }

/-- One iteration of the forecast loop: parse the date (a malformed date string
raises out of the loop) and build the flat record. -/
def normalizeDay (d : ProviderDay) : Except FetchError ForecastDay :=
  match parseDate d.date with
  | some dt => .ok (mkForecastDay d dt)
  | none => .error (.valueError d.date)

/-- The `for day in forecast_days` append loop of `get_weather`. -/
def normalizeForecast : List ProviderDay → Except FetchError (List ForecastDay)
  | [] => .ok []
  | d :: ds => do
    let fd ← normalizeDay d
    let rest ← normalizeForecast ds
    .ok (fd :: rest)

/-- The `data` dict built at the end of `get_weather`; `f0` is `forecast[0]`. -/
def mkCityWeather (current : Current) (location : Location) (f0 : ForecastDay)
    (forecast : List ForecastDay) : CityWeather :=
  { city := location.name
    region := location.region
    country := location.country
    temp := current.temp_c
    humidity := current.humidity
    weather := current.condition.text
    wind_kph := current.wind_kph
    wind_dir := current.wind_dir
    sunrise := f0.sunrise
    sunset := f0.sunset
    icon := fixIcon current.condition.icon
    forecast := forecast }

/-- Body of `get_weather` after the JSON decode: return `none` on the
provider's `error` indicator, otherwise flatten; each missing key and the
`forecast[0]` subscript raise. -/
def getWeatherBody (r : ProviderResponse) : Except FetchError (Option CityWeather) :=
  if r.error then .ok none
  else
    match r.current with
    | none => .error (.keyError "current")
    | some current =>
      match r.location with
      | none => .error (.keyError "location")
      | some location =>
        match r.forecast with
        | none => .error (.keyError "forecast")
        | some forecast_days =>
          match normalizeForecast forecast_days with
          | .error e => .error e
          | .ok forecast =>
            match forecast with
            | [] => .error .indexError
            | f0 :: _ =>
              .ok (some (mkCityWeather current location f0 forecast))

/-- The whole of `get_weather(city)`: the transport layer's result is the
argument; a transport failure is not caught and propagates. -/
def getWeather (resp : Except FetchError ProviderResponse) :
    Except FetchError (Option CityWeather) :=
  match resp with
  | .error e => .error e
  | .ok r => getWeatherBody r

/-- One alert banner kind of the extreme-alerts block. -/
inductive Alert where
  | hotDay
  | coldDay
  | highUV
  | highRain
deriving DecidableEq, Repr

/-- The extreme-alerts block for the selected forecast day: an
`if temp_day > 35 / elif temp_day < 10` pair, then two independent `if`s. -/
def alertsFor (d : ForecastDay) : List Alert :=
  (if d.temp_day > 35 then [.hotDay]
   else if d.temp_day < 10 then [.coldDay]
   else []) ++
  (if d.uv ≥ 7 then [.highUV] else []) ++
  (if d.chance_of_rain ≥ 50 then [.highRain] else [])

/-- The `next((d for d in forecast if d.date == selected_date), None)` lookup. -/
def forecastForDate (forecast : List ForecastDay) (sel : Date) : Option ForecastDay :=
  forecast.find? (fun d => d.date = sel)

/-- One column of the comparison DataFrame: its name and its date-keyed data. -/
structure Column where
  name : String
  data : List (Date × ℚ)
deriving DecidableEq, Repr

/-- The comparison DataFrame: a date index and a list of columns; a cell is the
column's value at an index date, `none` when that column has no such date. -/
structure ComparisonTable where
  index : List Date
  cols : List Column
deriving DecidableEq, Repr

/-- The initial `comparison_df = pd.DataFrame()`. -/
def ComparisonTable.empty : ComparisonTable := ⟨[], []⟩

/-- Model of `pd.concat([t, new], axis=1)`: an outer join on the date index
(the union of the two indexes) that appends the new columns. -/
def concatAxis1 (t : ComparisonTable) (idx : List Date) (newCols : List Column) :
    ComparisonTable :=
  ⟨t.index ++ idx.filter (fun d => ¬ d ∈ t.index), t.cols ++ newCols⟩

/-- The date index of one city's `temp_df` (its forecast dates, in order). -/
def cityIndex (w : CityWeather) : List Date := w.forecast.map ForecastDay.date

/-- The two renamed columns of one city's `temp_df`. -/
def cityColumns (w : CityWeather) : List Column :=
  [⟨w.city ++ "_day", w.forecast.map (fun d => (d.date, d.temp_day))⟩,
   ⟨w.city ++ "_night", w.forecast.map (fun d => (d.date, d.temp_night))⟩]

/-- The `comparison_df = pd.concat([comparison_df, temp_df], axis=1)` step. -/
def mergeCity (t : ComparisonTable) (w : CityWeather) : ComparisonTable :=
  concatAxis1 t (cityIndex w) (cityColumns w)

/-- The value of a named column at a date, `none` for a gap. -/
def cellValue (t : ComparisonTable) (colName : String) (d : Date) : Option ℚ :=
  (t.cols.find? (fun col => col.name = colName)).bind (fun col => col.data.lookup d)

/-- One row of the CSV download DataFrame: a forecast day plus the city tag. -/
structure ExportRow where
  day : ForecastDay
  city : String
deriving DecidableEq, Repr

/-- The rows one city appends to `download_df`
(`city_csv_df["city"] = weather["city"]`). -/
def exportRows (w : CityWeather) : List ExportRow :=
  w.forecast.map (fun d => ⟨d, w.city⟩)

/-- What the per-city column renders besides the tables: the city header, the
selected-day details (`none` when `forecast_for_date` found no match, in which
case the detail block and the alerts are skipped), and the alert banners. -/
structure RenderLog where
  city : String
  details : Option ForecastDay
  alerts : List Alert
deriving DecidableEq, Repr

/-- The mutable script state threaded through the city loop. -/
structure AppState where
  comparison_df : ComparisonTable
  download_df : List ExportRow
  notFound : List String
  queries : List String
  renders : List RenderLog
deriving DecidableEq, Repr

/-- State at `comparison_df = pd.DataFrame(); download_df = pd.DataFrame()`. -/
def initState : AppState := ⟨ComparisonTable.empty, [], [], [], []⟩

/-- One iteration of `for i, city in enumerate(cities)`: call `get_weather`
(a raised exception aborts the whole pass), record the `st.error` message on a
`None` result, otherwise render details and alerts for the selected date and
append to both DataFrames. -/
def processCity (api : String → Except FetchError ProviderResponse)
    (sel : String → Date) (st : AppState) (city : String) :
    Except FetchError AppState := do
  let weather? ← getWeather (api city)
  let st := { st with queries := st.queries ++ [city] }
  match weather? with
  | none => pure { st with notFound := st.notFound ++ [city] }
  | some weather =>
    let forecast_for_date := forecastForDate weather.forecast (sel city)
    let alerts :=
      match forecast_for_date with
      | none => []
      | some d => alertsFor d
    pure
      { st with
        comparison_df := mergeCity st.comparison_df weather
        download_df := st.download_df ++ exportRows weather
        renders := st.renders ++ [⟨weather.city, forecast_for_date, alerts⟩] }

/-- The whole city loop. -/
def processCities (api : String → Except FetchError ProviderResponse)
    (sel : String → Date) (cities : List String) (st : AppState) :
    Except FetchError AppState :=
  cities.foldlM (processCity api sel) st

/-- Strip leading and trailing whitespace, as Python `str.strip()`. -/
def stripChars (cs : List Char) : List Char :=
  ((cs.dropWhile Char.isWhitespace).reverse.dropWhile Char.isWhitespace).reverse

/-- Split a character list on commas, as Python `str.split(",")`:
the empty string yields one empty field, and empty fields are kept. -/
def splitOnComma : List Char → List (List Char)
  | [] => [[]]
  | c :: cs =>
    if c = ',' then [] :: splitOnComma cs
    else
      match splitOnComma cs with
      | [] => [[c]]
      | g :: gs => (c :: g) :: gs

/-- The `cities = [c.strip() for c in cities_input.split(",")]` line. -/
def parseCities (citiesInput : String) : List String :=
  (splitOnComma citiesInput.data).map (fun cs => String.mk (stripChars cs))

/-- One full pass of the script over a raw city-list input. -/
def runApp (api : String → Except FetchError ProviderResponse)
    (sel : String → Date) (citiesInput : String) : Except FetchError AppState :=
  processCities api sel (parseCities citiesInput) initState

/-- The `if not download_df.empty` gate in front of the CSV download button. -/
def downloadOffered (st : AppState) : Bool := !st.download_df.isEmpty

/-- The successful result a city contributes, if any. -/
def okWeather (r : Except FetchError (Option CityWeather)) : Option CityWeather :=
  match r with
  | .ok (some w) => some w
  | _ => none

/-- Whether `get_weather` reported the provider's not-found signal. -/
def isNotFound (r : Except FetchError (Option CityWeather)) : Bool :=
  match r with
  | .ok none => true
  | _ => false

/-- The successfully fetched records of a city list, in arrival order. -/
def successes (api : String → Except FetchError ProviderResponse)
    (cities : List String) : List CityWeather :=
  cities.filterMap (fun c => okWeather (getWeather (api c)))

/-- The render log one successful city leaves. -/
def renderOf (w : CityWeather) (selDate : Date) : RenderLog :=
  ⟨w.city, forecastForDate w.forecast selDate,
    match forecastForDate w.forecast selDate with
    | none => []
    | some d => alertsFor d⟩

/-- Whether a fetch completed without an uncaught exception. -/
def isOk {α : Type} (r : Except FetchError α) : Bool :=
  match r with
  | .ok _ => true
  | .error _ => false

/-!  Concrete fixtures used to evaluate the embedded code on sample inputs. -/

/-- A sample provider `day` object. -/
def sampleDetail : ProviderDayDetail :=
  ⟨30, 20, ⟨"Sunny", "//cdn.weatherapi.com/day.png"⟩, 10, 50, 20, 5⟩

/-- A sample provider forecast day with the given date string. -/
def sampleDay (s : String) : ProviderDay :=
  ⟨s, sampleDetail, ⟨"06:00 AM", "06:00 PM"⟩⟩

/-- Seven consecutive sample forecast days. -/
def sampleDays : List ProviderDay :=
  ["2025-01-01", "2025-01-02", "2025-01-03", "2025-01-04",
   "2025-01-05", "2025-01-06", "2025-01-07"].map sampleDay

/-- A sample successful provider response with a 7-day forecast. -/
def sampleResponse : ProviderResponse :=
  ⟨false,
   some ⟨25, 60, ⟨"Sunny", "//cdn.weatherapi.com/cur.png"⟩, 5, "N"⟩,
   some ⟨"Kathmandu", "Bagmati", "Nepal"⟩,
   some sampleDays⟩

/-- The flattened forecast of `sampleResponse`. -/
def sampleForecast : List ForecastDay :=
  sampleDays.map (fun d => mkForecastDay d ((parseDate d.date).getD ⟨0, 0, 0⟩))

/-- The `CityWeather` record `get_weather` returns for `sampleResponse`. -/
def sampleWeather : CityWeather :=
  mkCityWeather ⟨25, 60, ⟨"Sunny", "//cdn.weatherapi.com/cur.png"⟩, 5, "N"⟩
    ⟨"Kathmandu", "Bagmati", "Nepal"⟩
    (mkForecastDay (sampleDay "2025-01-01") ⟨2025, 1, 1⟩) sampleForecast

/-- A provider response whose body carries the `error` indicator. -/
def errorResponse : ProviderResponse := ⟨true, none, none, none⟩

/-- A second sample city: the same forecast dates under another name. -/
def sampleWeather2 : CityWeather := { sampleWeather with city := "Lalitpur" }

/-- A sample network oracle: `Kathmandu` resolves, everything else is the
provider's not-found body. -/
def sampleApi : String → Except FetchError ProviderResponse :=
  fun q => if q = "Kathmandu" then .ok sampleResponse else .ok errorResponse

/-- A sample per-city selected date, matching no forecast entry. -/
def sampleSel : String → Date := fun _ => ⟨1999, 1, 1⟩

/-- A forecast day with the given day temperature, UV index and rain chance,
used to exercise the alert thresholds at their boundaries. -/
def sampleAlertDay (t u rain : ℚ) : ForecastDay :=
  { date := ⟨2025, 1, 1⟩, temp_day := t, temp_night := 15, weather := "Sunny",
    wind_kph := 5, humidity := 50, chance_of_rain := rain, uv := u,
    sunrise := "06:00 AM", sunset := "06:00 PM",
    icon := "http://cdn.weatherapi.com/day.png" }

/-!  Helper lemmas about the embedded loop, shared by the claim theorems. -/

@[simp] theorem ok_bind {α β : Type} (a : α) (f : α → Except FetchError β) :
    (Except.ok a >>= f) = f a := rfl

@[simp] theorem error_bind {α β : Type} (e : FetchError) (f : α → Except FetchError β) :
    ((Except.error e : Except FetchError α) >>= f) = .error e := rfl

@[simp] theorem pure_ok {α : Type} (a : α) :
    (pure a : Except FetchError α) = .ok a := rfl

theorem processCity_notFound (api : String → Except FetchError ProviderResponse)
    (sel : String → Date) (st : AppState) (c : String)
    (h : getWeather (api c) = .ok none) :
    processCity api sel st c =
      .ok { st with notFound := st.notFound ++ [c], queries := st.queries ++ [c] } := by
  simp [processCity, h]

theorem processCity_success (api : String → Except FetchError ProviderResponse)
    (sel : String → Date) (st : AppState) (c : String) (w : CityWeather)
    (h : getWeather (api c) = .ok (some w)) :
    processCity api sel st c =
      .ok { st with
        queries := st.queries ++ [c]
        comparison_df := mergeCity st.comparison_df w
        download_df := st.download_df ++ exportRows w
        renders := st.renders ++ [renderOf w (sel c)] } := by
  simp [processCity, h, renderOf]

theorem processCity_error (api : String → Except FetchError ProviderResponse)
    (sel : String → Date) (st : AppState) (c : String) (e : FetchError)
    (h : getWeather (api c) = .error e) :
    processCity api sel st c = .error e := by
  simp [processCity, h]

theorem processCities_ok (api : String → Except FetchError ProviderResponse)
    (sel : String → Date) (cities : List String) (st : AppState)
    (h : ∀ c ∈ cities, isOk (getWeather (api c)) = true) :
    processCities api sel cities st = .ok
      { comparison_df := (successes api cities).foldl mergeCity st.comparison_df
        download_df := st.download_df ++ (successes api cities).flatMap exportRows
        notFound := st.notFound ++ cities.filter (fun c => isNotFound (getWeather (api c)))
        queries := st.queries ++ cities
        renders := st.renders ++ cities.filterMap
          (fun c => (okWeather (getWeather (api c))).map (fun w => renderOf w (sel c))) } := by
  induction cities generalizing st with
  | nil => simp [processCities, successes]
  | cons c cs ih =>
    have hc := h c (List.mem_cons_self c cs)
    have hcs : ∀ x ∈ cs, isOk (getWeather (api x)) = true :=
      fun x hx => h x (List.mem_cons_of_mem c hx)
    match hw : getWeather (api c) with
    | .error e => simp [isOk, hw] at hc
    | .ok none =>
      have step := processCity_notFound api sel st c hw
      have ih2 := ih { st with notFound := st.notFound ++ [c], queries := st.queries ++ [c] } hcs
      simp only [processCities, List.foldlM_cons, step, ok_bind]
      simp only [processCities] at ih2
      rw [ih2]
      simp [successes, okWeather, isNotFound, hw, List.append_assoc]
    | .ok (some w) =>
      have step := processCity_success api sel st c w hw
      have ih2 := ih { st with
        queries := st.queries ++ [c]
        comparison_df := mergeCity st.comparison_df w
        download_df := st.download_df ++ exportRows w
        renders := st.renders ++ [renderOf w (sel c)] } hcs
      simp only [processCities, List.foldlM_cons, step, ok_bind]
      simp only [processCities] at ih2
      rw [ih2]
      simp [successes, okWeather, isNotFound, hw, List.append_assoc]

theorem okWeather_eq_some (r : Except FetchError (Option CityWeather)) (w : CityWeather) :
    okWeather r = some w ↔ r = .ok (some w) := by
  cases r with
  | error e => simp [okWeather]
  | ok v => cases v <;> simp [okWeather]

theorem normalizeForecast_ok (ds : List ProviderDay)
    (h : ∀ d ∈ ds, (parseDate d.date).isSome = true) :
    normalizeForecast ds =
      .ok (ds.map (fun d => mkForecastDay d ((parseDate d.date).getD ⟨0, 0, 0⟩))) := by
  induction ds with
  | nil => simp [normalizeForecast]
  | cons d ds ih =>
    obtain ⟨dt, hdt⟩ := Option.isSome_iff_exists.mp (h d (List.mem_cons_self d ds))
    have ih2 := ih (fun x hx => h x (List.mem_cons_of_mem d hx))
    simp [normalizeForecast, normalizeDay, hdt, ih2]

theorem exportRows_length (w : CityWeather) :
    (exportRows w).length = w.forecast.length := by
  simp [exportRows]

theorem flatMap_exportRows_length (ws : List CityWeather)
    (h : ∀ w ∈ ws, w.forecast.length = 7) :
    (ws.flatMap exportRows).length = 7 * ws.length := by
  induction ws with
  | nil => simp
  | cons w ws ih =>
    have hw := h w (List.mem_cons_self w ws)
    have ih2 := ih (fun x hx => h x (List.mem_cons_of_mem w hx))
    simp [List.flatMap_cons, exportRows_length, hw, ih2, Nat.mul_succ, Nat.mul_add,
      Nat.add_comm]

theorem splitOnComma_ne_nil (cs : List Char) : splitOnComma cs ≠ [] := by
  induction cs with
  | nil => simp [splitOnComma]
  | cons c cs ih =>
    by_cases hc : c = ','
    · simp [splitOnComma, hc]
    · cases hg : splitOnComma cs with
      | nil => simp [splitOnComma, hc, hg]
      | cons g gs => simp [splitOnComma, hc, hg]

theorem lookup_map_date_eq_none (l : List ForecastDay) (f : ForecastDay → ℚ) (d : Date)
    (h : ¬ d ∈ l.map ForecastDay.date) :
    (l.map (fun fd => (fd.date, f fd))).lookup d = none := by
  induction l with
  | nil => simp
  | cons fd l ih =>
    simp only [List.map_cons, List.mem_cons] at h ⊢
    push_neg at h
    rw [List.lookup_cons]
    have hne : (d == fd.date) = false := by
      simp [h.1]
    simp [hne, ih h.2]

theorem sample_getWeather : getWeather (.ok sampleResponse) = .ok (some sampleWeather) := by
  decide

theorem mergeCity_index (t : ComparisonTable) (w : CityWeather) :
    (mergeCity t w).index = t.index ++ (cityIndex w).filter (fun d => ¬ d ∈ t.index) := rfl

theorem mergeCity_cols (t : ComparisonTable) (w : CityWeather) :
    (mergeCity t w).cols = t.cols ++ cityColumns w := rfl

/-!  Claim theorems. -/

/-- C1 counterexample: the icon transformation is the literal `"http:" + icon`,
so on an already-absolute URI it does double-prefix: the output is
`http:http://...`, which does not begin with exactly one `http:`. -/
theorem icon_prefix_cex :
    fixIcon "http://cdn.weatherapi.com/day.png" = "http:http://cdn.weatherapi.com/day.png" ∧
    fixIcon "http://cdn.weatherapi.com/day.png" ≠ "http://cdn.weatherapi.com/day.png" := by
  constructor
  · rfl
  · decide

/-- C1 (amended): the fixed icon transformation prepends the literal `http:`;
a protocol-relative URI `//x` becomes the absolute `http://x`, while an
already-absolute `http://x` is double-prefixed to `http:http://x`.  The
transformation is applied to every forecast-day icon and to the
current-conditions icon. -/
theorem icon_prefix_amended :
    (∀ s, fixIcon ("//" ++ s) = "http://" ++ s) ∧
    (∀ s, fixIcon ("http:" ++ s) = "http:http:" ++ s) ∧
    (∀ d dt, (mkForecastDay d dt).icon = fixIcon d.day.condition.icon) ∧
    (∀ cur loc f0 fc, (mkCityWeather cur loc f0 fc).icon = fixIcon cur.condition.icon) := by
  refine ⟨fun s => ?_, fun s => ?_, fun d dt => rfl, fun cur loc f0 fc => rfl⟩
  · unfold fixIcon; rw [← String.append_assoc]; rfl
  · unfold fixIcon; rw [← String.append_assoc]; rfl

/-- C2: the alert block emits exactly the alerts of the threshold table with
the stated boundary sides (`>` 35 for hot, `<` 10 for cold, `≥` 7 for UV,
`≥` 50 for rain), hot and cold are never emitted together, and the boundary
values 35, 10, 7 and 50 behave exactly as the claim states. -/
theorem alert_thresholds (d : ForecastDay) :
    (Alert.hotDay ∈ alertsFor d ↔ d.temp_day > 35) ∧
    (Alert.coldDay ∈ alertsFor d ↔ d.temp_day < 10) ∧
    (Alert.highUV ∈ alertsFor d ↔ d.uv ≥ 7) ∧
    (Alert.highRain ∈ alertsFor d ↔ d.chance_of_rain ≥ 50) ∧
    ¬ (Alert.hotDay ∈ alertsFor d ∧ Alert.coldDay ∈ alertsFor d) ∧
    (¬ Alert.hotDay ∈ alertsFor (sampleAlertDay 35 0 0) ∧
     Alert.hotDay ∈ alertsFor (sampleAlertDay 36 0 0) ∧
     ¬ Alert.coldDay ∈ alertsFor (sampleAlertDay 10 0 0) ∧
     Alert.coldDay ∈ alertsFor (sampleAlertDay 9 0 0) ∧
     Alert.highUV ∈ alertsFor (sampleAlertDay 20 7 0) ∧
     ¬ Alert.highUV ∈ alertsFor (sampleAlertDay 20 6 0) ∧
     Alert.highRain ∈ alertsFor (sampleAlertDay 20 0 50) ∧
     ¬ Alert.highRain ∈ alertsFor (sampleAlertDay 20 0 49)) := by
  refine ⟨?_, ?_, ?_, ?_, ?_, by decide⟩ <;>
    unfold alertsFor <;> split_ifs <;> simp_all <;> try linarith

/-- C3: `get_weather` returns the typed not-found result exactly when the body
carries the provider's `error` indicator; a transport failure propagates
unchanged, and a missing `current`, `location` or `forecast` key raises the
corresponding `KeyError` instead of being caught. -/
theorem fetch_error_handling :
    (∀ e : FetchError, getWeather (.error e) = .error e) ∧
    (∀ r : ProviderResponse, getWeather (.ok r) = .ok none ↔ r.error = true) ∧
    (∀ r : ProviderResponse, r.error = false → r.current = none →
      getWeather (.ok r) = .error (.keyError "current")) ∧
    (∀ (r : ProviderResponse) cur, r.error = false → r.current = some cur →
      r.location = none → getWeather (.ok r) = .error (.keyError "location")) ∧
    (∀ (r : ProviderResponse) cur loc, r.error = false → r.current = some cur →
      r.location = some loc → r.forecast = none →
      getWeather (.ok r) = .error (.keyError "forecast")) := by
  refine ⟨fun e => rfl, fun r => ?_, ?_, ?_, ?_⟩
  · constructor
    · intro h
      by_contra herr
      rw [Bool.not_eq_true] at herr
      obtain ⟨err, cur?, loc?, fc?⟩ := r
      cases err with
      | true => simp at herr
      | false =>
        cases cur? with
        | none => simp [getWeather, getWeatherBody] at h
        | some cur =>
          cases loc? with
          | none => simp [getWeather, getWeatherBody] at h
          | some loc =>
            cases fc? with
            | none => simp [getWeather, getWeatherBody] at h
            | some ds =>
              cases hnf : normalizeForecast ds with
              | error e => simp [getWeather, getWeatherBody, hnf] at h
              | ok fs =>
                cases fs with
                | nil => simp [getWeather, getWeatherBody, hnf] at h
                | cons f0 ft => simp [getWeather, getWeatherBody, hnf] at h
    · intro h
      simp [getWeather, getWeatherBody, h]
  · intro r h1 h2
    simp [getWeather, getWeatherBody, h1, h2]
  · intro r cur h1 h2 h3
    simp [getWeather, getWeatherBody, h1, h2, h3]
  · intro r cur loc h1 h2 h3 h4
    simp [getWeather, getWeatherBody, h1, h2, h3, h4]

/-- C3 witness: a transport error, a provider-error body and a body missing
`current`, each evaluated concretely. -/
theorem fetch_error_handling_witness :
    getWeather (Except.error .transport) = .error .transport ∧
    getWeather (.ok errorResponse) = .ok none ∧
    getWeather (.ok ⟨false, none, none, none⟩) = .error (.keyError "current") :=
  ⟨fetch_error_handling.1 .transport,
   (fetch_error_handling.2.1 errorResponse).mpr rfl,
   fetch_error_handling.2.2.1 ⟨false, none, none, none⟩ rfl rfl⟩

/-- C4: on a valid multi-day response (all expected keys present, 7 forecast
days, parseable and strictly ascending dates), `get_weather` returns a record
with exactly 7 forecast entries in ascending date order whose snapshot sunrise
and sunset are copied from the first forecast entry. -/
theorem normalize_seven_days (r : ProviderResponse) (cur : Current) (loc : Location)
    (ds : List ProviderDay)
    (he : r.error = false) (hc : r.current = some cur) (hl : r.location = some loc)
    (hf : r.forecast = some ds) (hlen : ds.length = 7)
    (hp : ∀ d ∈ ds, (parseDate d.date).isSome = true)
    (hasc : datesAscending (ds.map (fun d => (parseDate d.date).getD ⟨0, 0, 0⟩)) = true) :
    ∃ w, getWeather (.ok r) = .ok (some w) ∧
      w.forecast.length = 7 ∧
      datesAscending (w.forecast.map ForecastDay.date) = true ∧
      ∃ f0 rest, w.forecast = f0 :: rest ∧ w.sunrise = f0.sunrise ∧ w.sunset = f0.sunset := by
  have hnf := normalizeForecast_ok ds hp
  cases ds with
  | nil => simp at hlen
  | cons d0 dtl =>
    refine ⟨mkCityWeather cur loc (mkForecastDay d0 ((parseDate d0.date).getD ⟨0, 0, 0⟩))
      ((d0 :: dtl).map (fun d => mkForecastDay d ((parseDate d.date).getD ⟨0, 0, 0⟩))),
      ?_, ?_, ?_, ?_⟩
    · simp [getWeather, getWeatherBody, he, hc, hl, hf, hnf]
    · simp only [mkCityWeather]
      simpa using hlen
    · simpa [mkCityWeather, List.map_map, Function.comp, mkForecastDay] using hasc
    · exact ⟨mkForecastDay d0 ((parseDate d0.date).getD ⟨0, 0, 0⟩),
        List.map (fun d => mkForecastDay d ((parseDate d.date).getD ⟨0, 0, 0⟩)) dtl,
        rfl, rfl, rfl⟩

/-- C4 witness: the sample 7-day response, evaluated concretely. -/
theorem normalize_seven_days_witness :
    ∃ w, getWeather (.ok sampleResponse) = .ok (some w) ∧
      w.forecast.length = 7 ∧
      datesAscending (w.forecast.map ForecastDay.date) = true ∧
      ∃ f0 rest, w.forecast = f0 :: rest ∧ w.sunrise = f0.sunrise ∧ w.sunset = f0.sunset :=
  normalize_seven_days sampleResponse
    ⟨25, 60, ⟨"Sunny", "//cdn.weatherapi.com/cur.png"⟩, 5, "N"⟩
    ⟨"Kathmandu", "Bagmati", "Nepal"⟩ sampleDays rfl rfl rfl rfl (by decide)
    (by decide) (by decide)

/-- C5: after the city loop, the export table is exactly the concatenation, in
city arrival order, of each successfully fetched city's 7 forecast rows tagged
with that city's name, so its row count is 7 times the number of successes,
regardless of how many cities were not found. -/
theorem export_table_rows (api : String → Except FetchError ProviderResponse)
    (sel : String → Date) (cities : List String)
    (hok : ∀ c ∈ cities, isOk (getWeather (api c)) = true)
    (h7 : ∀ c ∈ cities, ∀ w, getWeather (api c) = .ok (some w) → w.forecast.length = 7) :
    ∃ st, processCities api sel cities initState = .ok st ∧
      st.download_df = (successes api cities).flatMap exportRows ∧
      st.download_df.length = 7 * (successes api cities).length ∧
      (∀ w ∈ successes api cities, ∀ row ∈ exportRows w, row.city = w.city) := by
  refine ⟨_, processCities_ok api sel cities initState hok, ?_, ?_, ?_⟩
  · simp [initState]
  · simp only [initState, List.nil_append]
    apply flatMap_exportRows_length
    intro w hw
    obtain ⟨c, hc, hcw⟩ := List.mem_filterMap.mp hw
    exact h7 c hc w ((okWeather_eq_some _ _).mp hcw)
  · intro w hw row hrow
    simp [exportRows] at hrow
    obtain ⟨d, hd, hrow⟩ := hrow
    rw [← hrow]

/-- C5 witness: one resolving city and one not-found city, evaluated
concretely; the export table carries exactly the 7 rows of the success. -/
theorem export_table_rows_witness :
    ∃ st, processCities sampleApi sampleSel ["Kathmandu", "Nowhere"] initState = .ok st ∧
      st.download_df = (successes sampleApi ["Kathmandu", "Nowhere"]).flatMap exportRows ∧
      st.download_df.length = 7 * (successes sampleApi ["Kathmandu", "Nowhere"]).length := by
  obtain ⟨st, hrun, hdf, hlen, htag⟩ :=
    export_table_rows sampleApi sampleSel ["Kathmandu", "Nowhere"]
      (by decide)
      (fun c hc w hw => by
        simp only [List.mem_cons, List.not_mem_nil, or_false] at hc
        rcases hc with hc | hc <;> subst hc
        · rw [show sampleApi "Kathmandu" = .ok sampleResponse from rfl,
            sample_getWeather] at hw
          have hws : w = sampleWeather := by
            have := Except.ok.inj hw
            exact (Option.some.inj this).symm
          subst hws
          decide
        · rw [show sampleApi "Nowhere" = .ok errorResponse from rfl] at hw
          simp [getWeather, getWeatherBody, errorResponse] at hw)
  exact ⟨st, hrun, hdf, hlen⟩

/-- C6: merging a city appends two columns named `{city}_day` and
`{city}_night`; the join on the date index is outer: identical 7-date sets
give 4 columns and 7 rows, the merged index is the union of the two cities'
dates (a concatenation when disjoint), and a date a city lacks is a `none`
gap in that city's columns, not an error. -/
theorem comparison_merge (w1 w2 : CityWeather) :
    (∀ t, (mergeCity t w1).cols.map Column.name
        = t.cols.map Column.name ++ [w1.city ++ "_day", w1.city ++ "_night"]) ∧
    ((cityIndex w1).length = 7 → (∀ d ∈ cityIndex w2, d ∈ cityIndex w1) →
      (mergeCity (mergeCity ComparisonTable.empty w1) w2).cols.length = 4 ∧
      (mergeCity (mergeCity ComparisonTable.empty w1) w2).index.length = 7) ∧
    (∀ d, d ∈ (mergeCity (mergeCity ComparisonTable.empty w1) w2).index ↔
      (d ∈ cityIndex w1 ∨ d ∈ cityIndex w2)) ∧
    ((∀ d ∈ cityIndex w1, ¬ d ∈ cityIndex w2) →
      (mergeCity (mergeCity ComparisonTable.empty w1) w2).index
        = cityIndex w1 ++ cityIndex w2) ∧
    (∀ d, ¬ d ∈ cityIndex w2 → ∀ col ∈ cityColumns w2, col.data.lookup d = none) := by
  have h1 : (mergeCity ComparisonTable.empty w1).index = cityIndex w1 := by
    rw [mergeCity_index]
    simp [ComparisonTable.empty]
  have h2 : (mergeCity (mergeCity ComparisonTable.empty w1) w2).index
      = cityIndex w1 ++ (cityIndex w2).filter (fun d => ¬ d ∈ cityIndex w1) := by
    rw [mergeCity_index, h1]
  refine ⟨?_, ?_, ?_, ?_, ?_⟩
  · intro t
    rw [mergeCity_cols]
    simp [cityColumns]
  · intro h7 hsub
    constructor
    · rw [mergeCity_cols, mergeCity_cols]
      simp [cityColumns, ComparisonTable.empty]
    · have hnil : (cityIndex w2).filter (fun d => ¬ d ∈ cityIndex w1) = [] := by
        rw [List.filter_eq_nil_iff]
        intro a ha
        simpa using hsub a ha
      rw [h2, hnil]
      simp [h7]
  · intro d
    rw [h2]
    simp only [List.mem_append, List.mem_filter, decide_eq_true_eq]
    constructor
    · rintro (h | ⟨h, _⟩)
      · exact Or.inl h
      · exact Or.inr h
    · rintro (h | h)
      · exact Or.inl h
      · by_cases h1m : d ∈ cityIndex w1
        · exact Or.inl h1m
        · exact Or.inr ⟨h, by simpa using h1m⟩
  · intro hdisj
    rw [h2]
    congr 1
    rw [List.filter_eq_self]
    intro a ha
    simp only [decide_not, Bool.not_eq_true', decide_eq_false_iff_not]
    intro hmem
    exact hdisj a hmem ha
  · intro d hd col hcol
    simp only [cityColumns, List.mem_cons, List.not_mem_nil, or_false] at hcol
    rcases hcol with hcol | hcol <;> subst hcol <;>
      exact lookup_map_date_eq_none _ _ _ hd

/-- C6 witness: two sample cities over the same 7 dates give 4 columns and 7
rows, and a date outside a city's forecast is a `none` gap in its column. -/
theorem comparison_merge_witness :
    (mergeCity (mergeCity ComparisonTable.empty sampleWeather) sampleWeather2).cols.length = 4 ∧
    (mergeCity (mergeCity ComparisonTable.empty sampleWeather) sampleWeather2).index.length = 7 ∧
    (⟨sampleWeather2.city ++ "_day",
        sampleWeather2.forecast.map (fun d => (d.date, d.temp_day))⟩ : Column).data.lookup
      (⟨1999, 1, 1⟩ : Date) = none :=
  ⟨((comparison_merge sampleWeather sampleWeather2).2.1 (by decide) (by decide)).1,
   ((comparison_merge sampleWeather sampleWeather2).2.1 (by decide) (by decide)).2,
   (comparison_merge sampleWeather sampleWeather2).2.2.2.2 ⟨1999, 1, 1⟩ (by decide)
     ⟨sampleWeather2.city ++ "_day",
       sampleWeather2.forecast.map (fun d => (d.date, d.temp_day))⟩ (by decide)⟩

/-- C7: a not-found city only records its error message: both tables are
unchanged and the loop continues; if every city is not found, both tables end
empty, every city was still queried, and no CSV download is offered. -/
theorem notfound_contributes_nothing (api : String → Except FetchError ProviderResponse)
    (sel : String → Date) :
    (∀ st c, getWeather (api c) = .ok none →
      processCity api sel st c =
        .ok { st with notFound := st.notFound ++ [c], queries := st.queries ++ [c] }) ∧
    (∀ cities, (∀ c ∈ cities, getWeather (api c) = .ok none) →
      ∃ st, processCities api sel cities initState = .ok st ∧
        st.comparison_df = ComparisonTable.empty ∧
        st.download_df = [] ∧
        downloadOffered st = false ∧
        st.queries = cities) := by
  refine ⟨fun st c h => processCity_notFound api sel st c h, fun cities hall => ?_⟩
  have hok : ∀ c ∈ cities, isOk (getWeather (api c)) = true := fun c hc => by
    rw [hall c hc]; rfl
  have hsucc : successes api cities = [] := by
    rw [successes, List.filterMap_eq_nil_iff]
    intro c hc
    rw [hall c hc]
    rfl
  refine ⟨_, processCities_ok api sel cities initState hok, ?_, ?_, ?_, ?_⟩
  · simp [hsucc, initState]
  · simp [hsucc, initState]
  · simp [downloadOffered, hsucc, initState]
  · simp [initState]

/-- C7 witness: the all-not-found run over `Nowhereville`, evaluated
concretely. -/
theorem notfound_contributes_nothing_witness :
    processCity (fun _ => .ok errorResponse) sampleSel initState "Nowhereville" =
      .ok { initState with notFound := ["Nowhereville"], queries := ["Nowhereville"] } ∧
    ∃ st, processCities (fun _ => .ok errorResponse) sampleSel ["Nowhereville"] initState
        = .ok st ∧
      st.comparison_df = ComparisonTable.empty ∧
      st.download_df = [] ∧
      downloadOffered st = false ∧
      st.queries = ["Nowhereville"] :=
  ⟨(notfound_contributes_nothing (fun _ => .ok errorResponse) sampleSel).1
      initState "Nowhereville" rfl,
   (notfound_contributes_nothing (fun _ => .ok errorResponse) sampleSel).2
      ["Nowhereville"] (by decide)⟩

/-- C8: the aggregation does not deduplicate: the same city name twice in the
input yields its two columns twice and its 7 export rows twice (14 rows). -/
theorem duplicate_city_not_deduped (api : String → Except FetchError ProviderResponse)
    (sel : String → Date) (c : String) (w : CityWeather)
    (h : getWeather (api c) = .ok (some w)) (h7 : w.forecast.length = 7) :
    ∃ st, processCities api sel [c, c] initState = .ok st ∧
      st.comparison_df.cols.map Column.name =
        [w.city ++ "_day", w.city ++ "_night", w.city ++ "_day", w.city ++ "_night"] ∧
      st.download_df = exportRows w ++ exportRows w ∧
      st.download_df.length = 14 := by
  have hok : ∀ x ∈ [c, c], isOk (getWeather (api x)) = true := by
    intro x hx
    simp only [List.mem_cons, List.not_mem_nil, or_false] at hx
    rcases hx with hx | hx <;> subst hx <;> rw [h] <;> rfl
  have hsucc : successes api [c, c] = [w, w] := by
    simp [successes, okWeather, h]
  refine ⟨_, processCities_ok api sel [c, c] initState hok, ?_, ?_, ?_⟩
  · simp only [hsucc, initState, List.foldl_cons, List.foldl_nil]
    rw [mergeCity_cols, mergeCity_cols]
    simp [cityColumns, ComparisonTable.empty]
  · simp [hsucc, initState]
  · simp [hsucc, initState, exportRows_length, h7]

/-- C8 witness: `Kathmandu` submitted twice, evaluated concretely. -/
theorem duplicate_city_not_deduped_witness :
    ∃ st, processCities (fun _ => .ok sampleResponse) sampleSel
        ["Kathmandu", "Kathmandu"] initState = .ok st ∧
      st.comparison_df.cols.map Column.name =
        [sampleWeather.city ++ "_day", sampleWeather.city ++ "_night",
         sampleWeather.city ++ "_day", sampleWeather.city ++ "_night"] ∧
      st.download_df = exportRows sampleWeather ++ exportRows sampleWeather ∧
      st.download_df.length = 14 :=
  duplicate_city_not_deduped (fun _ => .ok sampleResponse) sampleSel "Kathmandu"
    sampleWeather sample_getWeather (by decide)

/-- C9: comma-splitting any input yields at least one entry, empty entries
survive trimming (the empty input gives `[""]`, `" , x "` gives `["", "x"]`),
and the loop issues exactly one fetch per parsed entry, empty queries
included. -/
theorem city_list_parsing (s : String) :
    1 ≤ (parseCities s).length ∧
    (parseCities "" = [""] ∧ parseCities " , x " = ["", "x"]) ∧
    (∀ api sel, (∀ c ∈ parseCities s, isOk (getWeather (api c)) = true) →
      ∃ st, runApp api sel s = .ok st ∧ st.queries = parseCities s) := by
  refine ⟨?_, ⟨by decide, by decide⟩, fun api sel hok => ?_⟩
  · have hne : splitOnComma s.data ≠ [] := splitOnComma_ne_nil s.data
    have hpos : 0 < (splitOnComma s.data).length := List.length_pos.mpr hne
    simpa [parseCities] using hpos
  · have hrun := processCities_ok api sel (parseCities s) initState hok
    exact ⟨_, by simpa [runApp, processCities] using hrun, by simp [initState]⟩

/-- C9 witness: the input `","` parses to two empty entries and both are
queried. -/
theorem city_list_parsing_witness :
    1 ≤ (parseCities ",").length ∧
    (parseCities "" = [""] ∧ parseCities " , x " = ["", "x"]) ∧
    ∃ st, runApp (fun _ => .ok errorResponse) sampleSel "," = .ok st ∧
      st.queries = parseCities "," :=
  ⟨(city_list_parsing ",").1, (city_list_parsing ",").2.1,
   (city_list_parsing ",").2.2 (fun _ => .ok errorResponse) sampleSel (by decide)⟩

/-- C10: when the selected date matches no forecast entry, the lookup returns
the `None` default instead of raising, the detail block and alert evaluation
are skipped, and the city is still merged into both tables. -/
theorem missing_date_skips_details (api : String → Except FetchError ProviderResponse)
    (sel : String → Date) (st : AppState) (c : String) (w : CityWeather)
    (hw : getWeather (api c) = .ok (some w))
    (hmiss : ∀ d ∈ w.forecast, ¬ d.date = sel c) :
    forecastForDate w.forecast (sel c) = none ∧
    processCity api sel st c = .ok
      { st with
        queries := st.queries ++ [c]
        comparison_df := mergeCity st.comparison_df w
        download_df := st.download_df ++ exportRows w
        renders := st.renders ++ [⟨w.city, none, []⟩] } := by
  have hnone : forecastForDate w.forecast (sel c) = none := by
    rw [forecastForDate, List.find?_eq_none]
    intro d hd
    simpa using hmiss d hd
  refine ⟨hnone, ?_⟩
  rw [processCity_success api sel st c w hw]
  simp [renderOf, hnone]

/-- C10 witness: the sample city with a selected date outside its forecast,
evaluated concretely. -/
theorem missing_date_skips_details_witness :
    forecastForDate sampleWeather.forecast (sampleSel "Kathmandu") = none ∧
    processCity (fun _ => .ok sampleResponse) sampleSel initState "Kathmandu" = .ok
      { initState with
        queries := ["Kathmandu"]
        comparison_df := mergeCity ComparisonTable.empty sampleWeather
        download_df := exportRows sampleWeather
        renders := [⟨sampleWeather.city, none, []⟩] } :=
  missing_date_skips_details (fun _ => .ok sampleResponse) sampleSel initState
    "Kathmandu" sampleWeather sample_getWeather (by decide)

end Weather
